import Mathlib

/-
Verification of the teddycloud-custom-tag-helper frontend against its
specification.  The JavaScript sources are embedded shallowly: each React
state update or API call site becomes a pure Lean function on explicit
state/response structures, and JavaScript truthiness (`x || y` with 0,
empty string and undefined falsy) is modelled explicitly.
-/

namespace TagHelper

/-- JavaScript `a || d` where `a` is a possibly-absent number field:
`undefined` and `0` are falsy, so the default is used for both. -/
def jsOrNat : Option Nat → Nat → Nat
  | some n, d => if n = 0 then d else n
  | none, d => d

/-- JavaScript `a || d` where `a` is a possibly-absent boolean field. -/
def jsOrBool : Option Bool → Bool → Bool
  | some b, d => b || d
  | none, d => d

/-- JavaScript `a || d` where `a` is a possibly-absent string field:
`undefined` and the empty string are falsy. -/
def jsOrStr : Option String → String → String
  | some s, d => if s = "" then d else s
  | none, d => d

/-! ## API client (src/unnamed/part_002, frontend api/client.js)

The axios client is created with `timeout: 30000`.  Each endpoint function
is embedded as a constructor of a `Request` value recording the path, the
query parameters it actually sends, and the timeout it carries.  Requests
issued with the browser `fetch` API elsewhere in the code carry no timeout,
modelled as `timeoutMs = none`. -/

/-- An outgoing HTTP request as configured by the frontend code: path,
offset/limit query parameters, the optional status-filter query parameter,
and the timeout attached to the request (none when the call site attaches
no timeout). -/
structure Request where
  path : String
  skip : Nat
  limit : Nat
  filterParam : Option String
  timeoutMs : Option Nat
  deriving DecidableEq, Repr

/-- The axios client timeout from client.js: `timeout: 30000`. -/
def clientTimeoutMs : Nat := 30000

namespace tafLibraryAPI

/-- `tafLibraryAPI.getAll` from client.js: a two-parameter arrow function
whose request params object holds skip and limit only.  It sends no filter
parameter, and the request inherits the client timeout. -/
def getAll (skip limit : Nat) : Request :=
  { path := "/taf-library/", skip := skip, limit := limit,
    filterParam := none, timeoutMs := some clientTimeoutMs }

end tafLibraryAPI

namespace rfidTagsAPI

/-- `rfidTagsAPI.getAll` from client.js: sends `skip` and `limit` through
the axios client. -/
def getAll (skip limit : Nat) : Request :=
  { path := "/rfid-tags/", skip := skip, limit := limit,
    filterParam := none, timeoutMs := some clientTimeoutMs }

end rfidTagsAPI

/-- A rejected axios request as seen by the response interceptor:
`error.response?.data?.detail` (absent when there is no response body)
and `error.message`. -/
structure ApiError where
  responseDetail : Option String
  message : String
  deriving DecidableEq, Repr

/-- The response interceptor from client.js:
`error.userMessage = error.response?.data?.detail || error.message || 'Request failed'`. -/
def interceptorUserMessage (e : ApiError) : String :=
  jsOrStr e.responseDetail (jsOrStr (some e.message) "Request failed")

/-! ## TAF library provider (src/frontend/src/context/TAFLibraryContext.jsx) -/

/-- DEFAULT_PAGE_SIZE from TAFLibraryContext.jsx. -/
def DEFAULT_PAGE_SIZE : Nat := 50

/-- The request issued by `loadTafFiles`: it computes
`skip = (newPage - 1) * newPageSize` and evaluates
`tafLibraryAPI.getAll(skip, newPageSize, newFilter)`.  The callee is a
two-parameter JavaScript function, so the third argument `newFilter` is
dropped by JavaScript call semantics; the embedding therefore applies the
two-argument `getAll` and ignores `newFilter`. -/
def loadTafFilesRequest (newPage newPageSize : Nat) (newFilter : String) : Request :=
  let _ := newFilter
  tafLibraryAPI.getAll ((newPage - 1) * newPageSize) newPageSize

/-- The success response body of the TAF library endpoint, all fields
possibly absent as JavaScript property reads yield undefined. -/
structure TafResponse where
  success : Option Bool
  error : Option String
  taf_files : Option (List String)
  total_count : Option Nat
  linked_count : Option Nat
  orphaned_count : Option Nat
  filtered_count : Option Nat
  page : Option Nat
  page_size : Option Nat
  has_next : Option Bool
  has_prev : Option Bool
  deriving DecidableEq, Repr

/-- The provider state written by `loadTafFiles` on success. -/
structure TafState where
  tafFiles : List String
  statsTotal : Nat
  statsLinked : Nat
  statsOrphaned : Nat
  totalCount : Nat
  page : Nat
  pageSize : Nat
  hasNext : Bool
  hasPrev : Bool
  deriving DecidableEq, Repr

/-- The state-update block of `loadTafFiles` (lines 43 to 55 of
TAFLibraryContext.jsx), a direct transcription of the set* calls:
stats come from `total_count`, `linked_count` and `orphaned_count`, and
the pagination total is `data.filtered_count || data.total_count || 0`. -/
def loadTafFilesUpdate (data : TafResponse) : TafState :=
  { tafFiles := data.taf_files.getD [],
    statsTotal := jsOrNat data.total_count 0,
    statsLinked := jsOrNat data.linked_count 0,
    statsOrphaned := jsOrNat data.orphaned_count 0,
    totalCount := jsOrNat data.filtered_count (jsOrNat data.total_count 0),
    page := jsOrNat data.page 1,
    pageSize := jsOrNat data.page_size DEFAULT_PAGE_SIZE,
    hasNext := jsOrBool data.has_next false,
    hasPrev := jsOrBool data.has_prev false }

/-- Whether `loadTafFiles` treats the response as an API error:
`data.success === false && data.error` (a truthy error string). -/
def isErrorResponse (data : TafResponse) : Bool :=
  data.success = some false && jsOrStr data.error "" ≠ ""

/-- `loadTafFiles` applied to a response: throws the error message when the
response is an API error, otherwise performs the state update. -/
def loadTafFiles (data : TafResponse) : Except String TafState :=
  if isErrorResponse data then .error (jsOrStr data.error "")
  else .ok (loadTafFilesUpdate data)

/-- `changePageSize` from TAFLibraryContext.jsx: resets the page to 1 and
issues `loadTafFiles(true, 1, newPageSize, filter)`. -/
def changePageSizeRequest (newPageSize : Nat) (filter : String) : Request :=
  loadTafFilesRequest 1 newPageSize filter

/-! ## RFID tags view (src/unnamed/part_004, RFIDTagsView component)

This component does not go through the axios client: it calls the browser
fetch API directly, with no timeout attached. -/

/-- The request issued by `loadRFIDTags`: a raw fetch of
`/api/rfid-tags/?skip=...&limit=...` with `skip = (newPage - 1) * newPageSize`
and no timeout (no AbortSignal is passed). -/
def loadRFIDTagsRequest (newPage newPageSize : Nat) : Request :=
  { path := "/rfid-tags/", skip := (newPage - 1) * newPageSize,
    limit := newPageSize, filterParam := none, timeoutMs := none }

/-- `handlePageSizeChange` from RFIDTagsView: sets the page to 1 and calls
`loadRFIDTags(1, newPageSize)`. -/
def handlePageSizeChangeRequest (newPageSize : Nat) : Request :=
  loadRFIDTagsRequest 1 newPageSize

/-- One RFID tag as delivered by the backend: the model code string (a
possibly-absent field, manipulated character-wise) and the derived status
string. -/
structure RFIDTag where
  model : Option (List Char)
  status : String
  deriving DecidableEq, Repr

/-- The response body of the RFID tags endpoint. -/
structure RFIDResponse where
  tags : Option (List RFIDTag)
  total_count : Option Nat
  unconfigured_count : Option Nat
  assigned_count : Option Nat
  page : Option Nat
  page_size : Option Nat
  has_next : Option Bool
  has_prev : Option Bool
  deriving DecidableEq, Repr

/-- The system-sound model-code marker from RFIDTagsView. -/
def boxModelMarker : List Char := "box-de-de-01-".toList

/-- The filter predicate of `loadRFIDTags`:
`const model = tag.model || ""; return !model.startsWith("box-de-de-01-")`. -/
def isSystemSoundTag (t : RFIDTag) : Bool :=
  boxModelMarker.isPrefixOf (t.model.getD [])

/-- The component state written by `loadRFIDTags` on success. -/
structure RFIDState where
  tags : List RFIDTag
  statsTotal : Nat
  statsUnconfigured : Nat
  statsAssigned : Nat
  totalCount : Nat
  page : Nat
  pageSize : Nat
  hasNext : Bool
  hasPrev : Bool
  deriving DecidableEq, Repr

/-- The state-update block of `loadRFIDTags` (lines 657 to 677 of the
RFIDTagsView source): system-sound tags are filtered out of the list, the
assigned/unconfigured statistics prefer the server counts and fall back to
counts recomputed over the remaining tags (JavaScript `||`, so a server
count of 0 also falls back), and the displayed total prefers the server
total count. -/
def loadRFIDTagsUpdate (data : RFIDResponse) : RFIDState :=
  let filteredTags := (data.tags.getD []).filter (fun t => !(isSystemSoundTag t))
  let assigned := (filteredTags.filter (fun t => t.status = "assigned")).length
  let unconfigured := (filteredTags.filter (fun t => t.status = "unconfigured")).length
  { tags := filteredTags,
    statsTotal := jsOrNat data.total_count filteredTags.length,
    statsUnconfigured := jsOrNat data.unconfigured_count unconfigured,
    statsAssigned := jsOrNat data.assigned_count assigned,
    totalCount := jsOrNat data.total_count 0,
    page := jsOrNat data.page 1,
    pageSize := jsOrNat data.page_size DEFAULT_PAGE_SIZE,
    hasNext := jsOrBool data.has_next false,
    hasPrev := jsOrBool data.has_prev false }

/-- The scheme token stripped by `getTAFFileName`. -/
def libUriScheme : List Char := "lib://".toList

/-- `getTAFFileName` from RFIDTagsView: a falsy source (absent or empty)
yields null, a source starting with the scheme yields `source.substring(6)`,
anything else is returned unchanged. -/
def getTAFFileName (source : Option (List Char)) : Option (List Char) :=
  match source with
  | none => none
  | some s =>
    if s = [] then none
    else if libUriScheme.isPrefixOf s then some (s.drop 6)
    else some s

/-! ## Tonie editor form submission (src/unnamed/part_004, TonieEditor) -/

/-- The three form fields validated by `handleSubmit`; the remaining form
fields play no role in validation or call selection. -/
structure TonieFormData where
  audio_id : String
  hash : String
  series : String
  deriving DecidableEq, Repr

/-- An API call that `handleSubmit` or the confirmation flow can issue. -/
inductive SubmitCall where
  | update (no : Nat)
  | preview
  | create
  deriving DecidableEq, Repr

/-- The outcome of one `handleSubmit` run: the error message set (if any)
and the API calls issued, in order. -/
structure SubmitOutcome where
  error : Option String
  calls : List SubmitCall
  deriving DecidableEq, Repr

/-- `handleSubmit` from TonieEditor (lines 195 to 229): validates the three
required fields in order (an empty JavaScript string is falsy), returning
early with an error message and no API call on the first failure; otherwise
edit mode issues one update call for the existing record number and create
mode issues one preview call (creation itself happens only later, after
confirmation). -/
def handleSubmit (isEditMode : Bool) (tonieNo : Nat) (formData : TonieFormData) : SubmitOutcome :=
  if formData.audio_id = "" then { error := some "Audio ID is required", calls := [] }
  else if formData.hash = "" then { error := some "Hash is required", calls := [] }
  else if formData.series = "" then { error := some "Series name is required", calls := [] }
  else if isEditMode then { error := none, calls := [.update tonieNo] }
  else { error := none, calls := [.preview] }

/-! ## Reconciliation engine

The backend reconciliation code is not part of this source tree; the
definitions below are modelled from the specification (sections 4.5 and 6)
and settle the claims about it against that model. -/

/-- Modelled from the spec: a ContentFile, one audio cartridge image on
disk, with its optional header-derived identity fields (section 3). -/
structure ContentFile where
  path : String
  contentId : Option Nat
  contentHash : Option String
  deriving DecidableEq, Repr

/-- Modelled from the spec: a CatalogRecord with its identity lists and the
source-path binding of custom records (section 3). -/
structure CatalogRecord where
  no : Nat
  contentIds : List Nat
  contentHashes : List String
  sourcePath : Option String
  isCustom : Bool
  deriving DecidableEq, Repr

/-- Modelled from the spec: strategy 1, the content id of the file appears
in the content-id list of the record. -/
def matchesByContentId (f : ContentFile) (r : CatalogRecord) : Bool :=
  match f.contentId with
  | some i => r.contentIds.contains i
  | none => false

/-- Modelled from the spec: strategy 2, the content hash of the file
appears in the content-hash list of the record. -/
def matchesByHash (f : ContentFile) (r : CatalogRecord) : Bool :=
  match f.contentHash with
  | some h => r.contentHashes.contains h
  | none => false

/-- Modelled from the spec: strategy 3, the source-path field of a custom
record equals the path of the file. -/
def matchesBySourcePath (f : ContentFile) (r : CatalogRecord) : Bool :=
  r.isCustom && r.sourcePath = some f.path

/-- Modelled from the spec: resolve one ContentFile against the catalog.
The three strategies are evaluated in fixed priority order (content id,
then hash, then source path); the first candidate wins, and the remaining
candidates that are different records are exposed as the discarded list. -/
def resolveFile (catalog : List CatalogRecord) (f : ContentFile) :
    Option CatalogRecord × List CatalogRecord :=
  let idMatches := catalog.filter (fun r => matchesByContentId f r)
  let hashMatches := catalog.filter (fun r => matchesByHash f r)
  let pathMatches := catalog.filter (fun r => matchesBySourcePath f r)
  match idMatches ++ hashMatches ++ pathMatches with
  | [] => (none, [])
  | best :: rest => (some best, rest.filter (fun c => c ≠ best))

/-- Modelled from the spec: one entry of the joined per-content-file view,
pairing the file with its resolved record (none when orphaned) and the
discarded alternative candidates. -/
structure LinkedView where
  file : ContentFile
  resolved : Option CatalogRecord
  discarded : List CatalogRecord
  deriving DecidableEq, Repr

/-- Modelled from the spec: the result record of `scanAndReconcile`
(section 6). -/
structure ReconcileResult where
  items : List LinkedView
  totalCount : Nat
  filteredCount : Nat
  linkedCount : Nat
  orphanedCount : Nat
  hasNext : Bool
  hasPrev : Bool
  deriving DecidableEq, Repr

/-- Modelled from the spec: `scanAndReconcile(filterStatus?, skip, limit)`.
Every file is resolved; total/linked/orphaned counts are computed over the
full set, the filtered count over the set remaining after the optional
status filter, and the page is an offset/limit slice of the filtered,
order-stable list (sections 4.5 and 6). -/
def scanAndReconcile (catalog : List CatalogRecord) (files : List ContentFile)
    (filterStatus : Option String) (skip limit : Nat) : ReconcileResult :=
  let joined := files.map (fun f =>
    let r := resolveFile catalog f
    { file := f, resolved := r.1, discarded := r.2 : LinkedView })
  let linked := joined.filter (fun e => e.resolved.isSome)
  let orphaned := joined.filter (fun e => e.resolved.isNone)
  let filtered :=
    if filterStatus = some "linked" then linked
    else if filterStatus = some "orphaned" then orphaned
    else joined
  { items := (filtered.drop skip).take limit,
    totalCount := joined.length,
    filteredCount := filtered.length,
    linkedCount := linked.length,
    orphanedCount := orphaned.length,
    hasNext := decide (skip + limit < filtered.length),
    hasPrev := decide (0 < skip) }

/-! ## Filename heuristic parser

The backend parser is not part of this source tree; the definitions below
are modelled from the specification (section 4.3).  `parseTafFilename`
follows the section 4.3 grammar literally (the first grammar requires five
dash-delimited segments); `parseTafFilenameFourSeg` is the same parser with
the first grammar accepting four segments, the amendment forced by the
section 8 example vectors. -/

/-- Modelled from the spec: the parse result, a best-effort series and
episode with a low-confidence flag for the fallback case. -/
structure ParsedName where
  series : List Char
  episode : List Char
  lowConfidence : Bool
  deriving DecidableEq, Repr

/-- Underscores are replaced with spaces before segmentation. -/
def underscoreToSpace (c : Char) : Char :=
  if c = '_' then ' ' else c

/-- Split a character list on the dash separator token (space, dash,
space), accumulating the current segment. -/
def splitOnDash : List Char → List Char → List (List Char)
  | [], acc => [acc.reverse]
  | ' ' :: '-' :: ' ' :: rest, acc => acc.reverse :: splitOnDash rest []
  | c :: rest, acc => splitOnDash rest (c :: acc)

/-- Modelled from the spec, section 4.3 taken literally: grammar 1 requires
five dash-delimited segments (series = segment 2, episode = segment 4),
grammar 2 requires three (series = segment 1, episode = "Episode "
followed by segment 2); otherwise the whole cleaned filename is returned
as both series and episode with low confidence. -/
def parseTafFilename (name : List Char) : ParsedName :=
  let cleaned := name.map underscoreToSpace
  let segs := splitOnDash cleaned []
  if segs.length = 5 then
    { series := segs.getD 1 [], episode := segs.getD 3 [], lowConfidence := false }
  else if segs.length = 3 then
    { series := segs.getD 0 [], episode := "Episode ".toList ++ segs.getD 1 [],
      lowConfidence := false }
  else
    { series := cleaned, episode := cleaned, lowConfidence := true }

/-- Modelled from the spec: the amended parser whose first grammar accepts
four dash-delimited segments (Author - Series - Category - Episode), with
series = segment 2 and episode = segment 4, as the section 8 example
vectors require; the rest is unchanged. -/
def parseTafFilenameFourSeg (name : List Char) : ParsedName :=
  let cleaned := name.map underscoreToSpace
  let segs := splitOnDash cleaned []
  if segs.length = 4 then
    { series := segs.getD 1 [], episode := segs.getD 3 [], lowConfidence := false }
  else if segs.length = 3 then
    { series := segs.getD 0 [], episode := "Episode ".toList ++ segs.getD 1 [],
      lowConfidence := false }
  else
    { series := cleaned, episode := cleaned, lowConfidence := true }

/-! ## Theorems -/

/-- C1: the claim says `loadTafFiles` invoked with filter f passes f through
`tafLibraryAPI.getAll` to the server.  The code does not: `getAll` in
client.js has only two parameters, so the third argument is dropped and the
request carries no filter parameter at all.  This theorem evaluates the
request at the failing input (page 1, page size 50, filter "orphaned"): the
request is byte-identical to the unfiltered one and has no filter
parameter, contradicting the v2.2.3 changelog entry that documents the
filter parameter being added to `tafLibraryAPI.getAll`. -/
theorem loadTafFiles_request_ignores_filter :
    loadTafFilesRequest 1 50 "orphaned" = loadTafFilesRequest 1 50 "all" ∧
    (loadTafFilesRequest 1 50 "orphaned").filterParam = none :=
  ⟨rfl, rfl⟩

/-- A concrete TAF library response whose filtered count is 0 while the
unfiltered total is 100 (e.g. filter "orphaned" with no orphaned files). -/
def tafResponseZeroFiltered : TafResponse :=
  { success := none, error := none, taf_files := some [],
    total_count := some 100, linked_count := some 100, orphaned_count := some 0,
    filtered_count := some 0, page := some 1, page_size := some 50,
    has_next := some false, has_prev := some false }

/-- C2 counterexample: the claim says the pagination total is never
conflated with the unfiltered total, for every response including those
whose filtered count is 0.  On the response above, `filtered_count` is 0,
yet the pagination total is set to 100, the unfiltered total: the
JavaScript expression `data.filtered_count || data.total_count || 0`
treats 0 as falsy and falls through to `total_count`. -/
theorem paginationTotal_conflated_when_filtered_count_zero :
    loadTafFiles tafResponseZeroFiltered =
      Except.ok (loadTafFilesUpdate tafResponseZeroFiltered) ∧
    tafResponseZeroFiltered.filtered_count = some 0 ∧
    (loadTafFilesUpdate tafResponseZeroFiltered).totalCount = 100 :=
  ⟨rfl, rfl, rfl⟩

/-- C2 amended: for every successful TAF library load whose filtered count
is present and nonzero, the pagination total is the filtered count, and the
summary statistics are set from the unfiltered total, linked and orphaned
counts; when the filtered count is 0 or absent, the pagination total falls
back to the unfiltered total count. -/
theorem paginationTotal_from_nonzero_filtered_count
    (data : TafResponse) (s : TafState) (n : Nat)
    (hok : loadTafFiles data = Except.ok s)
    (hf : data.filtered_count = some n) (hn : n ≠ 0) :
    s.totalCount = n ∧
    s.statsTotal = jsOrNat data.total_count 0 ∧
    s.statsLinked = jsOrNat data.linked_count 0 ∧
    s.statsOrphaned = jsOrNat data.orphaned_count 0 := by
  unfold loadTafFiles at hok
  by_cases hb : isErrorResponse data = true
  · simp [hb] at hok
  · simp [hb] at hok
    subst hok
    refine ⟨?_, rfl, rfl, rfl⟩
    simp [loadTafFilesUpdate, hf, jsOrNat, hn]

/-- A concrete TAF library response with a nonzero filtered count. -/
def tafResponseSevenFiltered : TafResponse :=
  { success := none, error := none, taf_files := some ["a.taf"],
    total_count := some 100, linked_count := some 93, orphaned_count := some 7,
    filtered_count := some 7, page := some 1, page_size := some 50,
    has_next := some false, has_prev := some false }

/-- C2 witness: the amended theorem applied to the concrete response with
filtered count 7 and total count 100. -/
theorem paginationTotal_from_nonzero_filtered_count_witness :
    (loadTafFilesUpdate tafResponseSevenFiltered).totalCount = 7 ∧
    (loadTafFilesUpdate tafResponseSevenFiltered).statsTotal = 100 := by
  have h := paginationTotal_from_nonzero_filtered_count tafResponseSevenFiltered
    (loadTafFilesUpdate tafResponseSevenFiltered) 7 rfl rfl (by decide)
  exact ⟨h.1, h.2.1.trans (by decide)⟩

/-- C5: both page-size changes request the first page: `changePageSize` in
the TAF library provider issues a request with skip = (1 - 1) * newPageSize
= 0, and `handlePageSizeChange` in the RFID tags view likewise fetches with
skip = 0, for every new page size and current filter. -/
theorem pageSize_change_resets_to_first_page (newPageSize : Nat) (filter : String) :
    (changePageSizeRequest newPageSize filter).skip = 0 ∧
    (handlePageSizeChangeRequest newPageSize).skip = 0 := by
  constructor <;>
    simp [changePageSizeRequest, loadTafFilesRequest, tafLibraryAPI.getAll,
      handlePageSizeChangeRequest, loadRFIDTagsRequest]

/-- C5 witness: the theorem at page size 25 and filter "all". -/
theorem pageSize_change_resets_to_first_page_witness :
    (changePageSizeRequest 25 "all").skip = 0 ∧
    (handlePageSizeChangeRequest 25).skip = 0 :=
  pageSize_change_resets_to_first_page 25 "all"

/-- C6: `getTAFFileName` strips the lib scheme exactly (a source of the
form lib:// followed by a relative path yields exactly that relative
path), a missing source yields null, and a nonempty source that does not
start with the scheme is returned unchanged. -/
theorem getTAFFileName_spec :
    (∀ p : List Char, getTAFFileName (some (libUriScheme ++ p)) = some p) ∧
    getTAFFileName none = none ∧
    (∀ s : List Char, s ≠ [] → libUriScheme.isPrefixOf s = false →
      getTAFFileName (some s) = some s) := by
  refine ⟨?_, rfl, ?_⟩
  · intro p
    have hpre : libUriScheme.isPrefixOf (libUriScheme ++ p) = true := by
      simp [List.isPrefixOf_iff_prefix]
    have hne : libUriScheme ++ p ≠ [] := by simp [libUriScheme]
    have h6 : libUriScheme.length = 6 := by decide
    simp [getTAFFileName, hne, hpre]
    exact h6 ▸ List.drop_left libUriScheme p
  · intro s hne hpre
    simp [getTAFFileName, hne, hpre]

/-- C6 witness: the unchanged case of the theorem at a concrete source
without the scheme. -/
theorem getTAFFileName_spec_witness :
    getTAFFileName (some "audio.taf".toList) = some "audio.taf".toList :=
  getTAFFileName_spec.2.2 "audio.taf".toList (by decide) (by decide)

/-- A list splits into the part satisfying a Boolean predicate and the part
falsifying it. -/
theorem filter_length_partition {α : Type} (l : List α) (p : α → Bool) :
    (l.filter p).length + (l.filter (fun a => !(p a))).length = l.length := by
  induction l with
  | nil => rfl
  | cons a t ih =>
    by_cases h : p a = true <;>
      simp [List.filter_cons, h, ← ih] <;> omega

/-- C3: for every catalog, file set, filter and page, the linked and
orphaned counts reported by `scanAndReconcile` partition the total count:
linkedCount + orphanedCount = totalCount. -/
theorem linked_add_orphaned_eq_total
    (catalog : List CatalogRecord) (files : List ContentFile)
    (filterStatus : Option String) (skip limit : Nat) :
    (scanAndReconcile catalog files filterStatus skip limit).linkedCount +
      (scanAndReconcile catalog files filterStatus skip limit).orphanedCount =
      (scanAndReconcile catalog files filterStatus skip limit).totalCount := by
  simp only [scanAndReconcile]
  have hcongr :
      ∀ l : List LinkedView,
        l.filter (fun e => e.resolved.isNone) =
          l.filter (fun e => !(e.resolved.isSome)) := by
    intro l
    refine List.filter_congr ?_
    intro e _
    cases e.resolved <;> rfl
  rw [hcongr]
  exact filter_length_partition _ _

/-- C4: if a ContentFile matches record A by content id (and A is the only
content-id match in the catalog) and a different record B by content hash,
then the resolved record is A and B appears in the discarded-candidates
list. -/
theorem contentId_match_wins_hash_in_discarded
    (catalog : List CatalogRecord) (f : ContentFile) (A B : CatalogRecord)
    (hA : A ∈ catalog) (hAid : matchesByContentId f A = true)
    (huniq : ∀ r ∈ catalog, matchesByContentId f r = true → r = A)
    (hB : B ∈ catalog) (hBhash : matchesByHash f B = true)
    (hAB : A ≠ B) :
    (resolveFile catalog f).1 = some A ∧ B ∈ (resolveFile catalog f).2 := by
  have hAmem : A ∈ catalog.filter (fun r => matchesByContentId f r) :=
    List.mem_filter.mpr ⟨hA, hAid⟩
  cases hidm : catalog.filter (fun r => matchesByContentId f r) with
  | nil =>
    rw [hidm] at hAmem
    cases hAmem
  | cons b t =>
    have hbmem : b ∈ catalog.filter (fun r => matchesByContentId f r) := by
      rw [hidm]; exact List.mem_cons_self b t
    have hb : b = A :=
      huniq b (List.mem_of_mem_filter hbmem) (List.of_mem_filter hbmem)
    subst hb
    have hBmem : B ∈ catalog.filter (fun r => matchesByHash f r) :=
      List.mem_filter.mpr ⟨hB, hBhash⟩
    have hBne : B ≠ b := Ne.symm hAB
    simp only [resolveFile, hidm, List.cons_append]
    refine ⟨by simp, ?_⟩
    refine List.mem_filter.mpr ⟨?_, by simpa using hBne⟩
    exact List.mem_append_left _ (List.mem_append_right t hBmem)

/-- A concrete catalog record matched by content id. -/
def recordById : CatalogRecord :=
  { no := 1, contentIds := [10], contentHashes := [], sourcePath := none,
    isCustom := false }

/-- A concrete catalog record matched by content hash. -/
def recordByHash : CatalogRecord :=
  { no := 2, contentIds := [], contentHashes := ["ff00"], sourcePath := none,
    isCustom := false }

/-- A concrete content file matching `recordById` by content id and
`recordByHash` by hash. -/
def conflictedFile : ContentFile :=
  { path := "a.taf", contentId := some 10, contentHash := some "ff00" }

/-- C4 witness: the priority-law theorem at the concrete two-record catalog
and conflicted file. -/
theorem contentId_match_wins_hash_in_discarded_witness :
    (resolveFile [recordById, recordByHash] conflictedFile).1 = some recordById ∧
    recordByHash ∈ (resolveFile [recordById, recordByHash] conflictedFile).2 :=
  contentId_match_wins_hash_in_discarded [recordById, recordByHash]
    conflictedFile recordById recordByHash (by decide) (by decide)
    (by decide) (by decide) (by decide) (by decide)

/-- The first example filename from the specification, section 8. -/
def margitFilename : List Char :=
  "Margit_Auer_-_Die_Schule_der_magischen_Tiere_-_Hoerspiel_-_Folge_01".toList

/-- The second example filename from the specification, section 8. -/
def heidiFilename : List Char :=
  "Heidi_-_03_-_Der_Grossvater".toList

/-- C7 counterexample: the first example filename has four dash-delimited
segments, so the literally-specified first grammar (which requires five)
does not apply, the three-segment grammar does not apply either, and the
parser falls back to returning the whole cleaned filename with low
confidence — not the claimed series "Die Schule der magischen Tiere". -/
theorem margit_filename_not_parsed_by_spec_grammar :
    (parseTafFilename margitFilename).series ≠
      "Die Schule der magischen Tiere".toList ∧
    (parseTafFilename margitFilename).lowConfidence = true := by
  constructor
  · decide
  · decide

/-- C7 amended: with the first grammar amended to accept four dash-delimited
segments (Author - Series - Category - Episode, series = segment 2,
episode = segment 4) and the three-segment grammar unchanged, both example
vectors parse as the claim states: the first to series "Die Schule der
magischen Tiere" and episode "Folge 01", the second to series "Heidi" and
episode "Episode 03". -/
theorem filename_grammar_examples_amended :
    (parseTafFilenameFourSeg margitFilename).series =
      "Die Schule der magischen Tiere".toList ∧
    (parseTafFilenameFourSeg margitFilename).episode = "Folge 01".toList ∧
    (parseTafFilenameFourSeg heidiFilename).series = "Heidi".toList ∧
    (parseTafFilenameFourSeg heidiFilename).episode = "Episode 03".toList := by
  refine ⟨by decide, by decide, by decide, by decide⟩

/-- C8 counterexample: the claim says every remote-API call made by this
system carries a bounded timeout.  The RFID tags listing is fetched with
the browser fetch API and no timeout: its request carries none. -/
theorem rfid_fetch_has_no_timeout :
    (loadRFIDTagsRequest 1 50).timeoutMs = none :=
  rfl

/-- C8 amended: calls made through the centralized axios client carry the
fixed 30-second timeout, and the response interceptor attaches a
userMessage to every rejected request, extracted as
detail-then-message-then-fixed-fallback; calls issued directly with fetch
(such as the RFID tags listing) carry no timeout. -/
theorem client_requests_timeout_and_userMessage :
    (∀ skip limit : Nat, (tafLibraryAPI.getAll skip limit).timeoutMs = some 30000) ∧
    (∀ skip limit : Nat, (rfidTagsAPI.getAll skip limit).timeoutMs = some 30000) ∧
    (∀ (e : ApiError) (d : String), e.responseDetail = some d → d ≠ "" →
      interceptorUserMessage e = d) ∧
    (∀ e : ApiError, e.responseDetail = none → e.message ≠ "" →
      interceptorUserMessage e = e.message) ∧
    (∀ e : ApiError, e.responseDetail = none → e.message = "" →
      interceptorUserMessage e = "Request failed") := by
  refine ⟨fun _ _ => rfl, fun _ _ => rfl, ?_, ?_, ?_⟩
  · intro e d hd hne
    simp [interceptorUserMessage, jsOrStr, hd, hne]
  · intro e hd hne
    simp [interceptorUserMessage, jsOrStr, hd, hne]
  · intro e hd hm
    simp [interceptorUserMessage, jsOrStr, hd, hm]

/-- C8 witness: the amended theorem at the TAF library endpoint and a
rejected request carrying a response detail. -/
theorem client_requests_timeout_and_userMessage_witness :
    (tafLibraryAPI.getAll 0 50).timeoutMs = some 30000 ∧
    interceptorUserMessage
      { responseDetail := some "Not found",
        message := "Request failed with status code 404" } = "Not found" :=
  ⟨client_requests_timeout_and_userMessage.1 0 50,
   client_requests_timeout_and_userMessage.2.2.1
     { responseDetail := some "Not found",
       message := "Request failed with status code 404" }
     "Not found" rfl (by decide)⟩

/-- C9: in the RFID tags state update, every displayed tag has a model code
not starting with the system-sound marker; the displayed total is the
server total count whenever that count is nonzero; and the assigned and
unconfigured statistics are the server counts when nonzero, falling back to
counts recomputed over the remaining tags when the server count is absent
or zero. -/
theorem loadRFIDTags_spec (data : RFIDResponse) :
    (∀ t ∈ (loadRFIDTagsUpdate data).tags, isSystemSoundTag t = false) ∧
    (∀ n : Nat, data.total_count = some n → n ≠ 0 →
      (loadRFIDTagsUpdate data).statsTotal = n) ∧
    (data.assigned_count = none ∨ data.assigned_count = some 0 →
      (loadRFIDTagsUpdate data).statsAssigned =
        (((data.tags.getD []).filter (fun t => !(isSystemSoundTag t))).filter
          (fun t => t.status = "assigned")).length) ∧
    (∀ n : Nat, data.assigned_count = some n → n ≠ 0 →
      (loadRFIDTagsUpdate data).statsAssigned = n) ∧
    (data.unconfigured_count = none ∨ data.unconfigured_count = some 0 →
      (loadRFIDTagsUpdate data).statsUnconfigured =
        (((data.tags.getD []).filter (fun t => !(isSystemSoundTag t))).filter
          (fun t => t.status = "unconfigured")).length) ∧
    (∀ n : Nat, data.unconfigured_count = some n → n ≠ 0 →
      (loadRFIDTagsUpdate data).statsUnconfigured = n) := by
  refine ⟨?_, ?_, ?_, ?_, ?_, ?_⟩
  · intro t ht
    simp only [loadRFIDTagsUpdate, List.mem_filter] at ht
    simpa using ht.2
  · intro n hn hne
    simp [loadRFIDTagsUpdate, jsOrNat, hn, hne]
  · rintro (h | h) <;> simp [loadRFIDTagsUpdate, jsOrNat, h]
  · intro n hn hne
    simp [loadRFIDTagsUpdate, jsOrNat, hn, hne]
  · rintro (h | h) <;> simp [loadRFIDTagsUpdate, jsOrNat, h]
  · intro n hn hne
    simp [loadRFIDTagsUpdate, jsOrNat, hn, hne]

/-- A concrete RFID tags response: one system-sound tag, one assigned tag
and one unconfigured tag, with a server assigned count of 0 (falsy, so the
view recomputes it) and nonzero server totals. -/
def rfidResponseMixed : RFIDResponse :=
  { tags := some
      [ { model := some "box-de-de-01-0001".toList, status := "assigned" },
        { model := some "tt-42-0001".toList, status := "assigned" },
        { model := none, status := "unconfigured" } ],
    total_count := some 5, unconfigured_count := some 2, assigned_count := some 0,
    page := some 1, page_size := some 50, has_next := some false,
    has_prev := some false }

/-- C9 witness: the theorem at the mixed response — the assigned statistic
falls back to the recomputed count 1 (the system-sound tag is excluded),
the total shows the server count 5 and the unconfigured statistic shows the
server count 2. -/
theorem loadRFIDTags_spec_witness :
    (loadRFIDTagsUpdate rfidResponseMixed).statsAssigned = 1 ∧
    (loadRFIDTagsUpdate rfidResponseMixed).statsTotal = 5 ∧
    (loadRFIDTagsUpdate rfidResponseMixed).statsUnconfigured = 2 := by
  have h := loadRFIDTags_spec rfidResponseMixed
  exact ⟨(h.2.2.1 (Or.inr rfl)).trans (by decide),
    h.2.1 5 rfl (by decide),
    h.2.2.2.2.2 2 rfl (by decide)⟩

/-- C10: `handleSubmit` returns early with an error message and no API call
when the audio id, hash or series field is empty (checked in that order);
with all three non-empty, edit mode issues exactly one update call for the
existing record and create mode issues exactly one preview call. -/
theorem handleSubmit_spec (isEditMode : Bool) (tonieNo : Nat) (fd : TonieFormData) :
    (fd.audio_id = "" →
      handleSubmit isEditMode tonieNo fd =
        { error := some "Audio ID is required", calls := [] }) ∧
    (fd.audio_id ≠ "" → fd.hash = "" →
      handleSubmit isEditMode tonieNo fd =
        { error := some "Hash is required", calls := [] }) ∧
    (fd.audio_id ≠ "" → fd.hash ≠ "" → fd.series = "" →
      handleSubmit isEditMode tonieNo fd =
        { error := some "Series name is required", calls := [] }) ∧
    (fd.audio_id ≠ "" → fd.hash ≠ "" → fd.series ≠ "" → isEditMode = true →
      handleSubmit isEditMode tonieNo fd =
        { error := none, calls := [SubmitCall.update tonieNo] }) ∧
    (fd.audio_id ≠ "" → fd.hash ≠ "" → fd.series ≠ "" → isEditMode = false →
      handleSubmit isEditMode tonieNo fd =
        { error := none, calls := [SubmitCall.preview] }) := by
  refine ⟨?_, ?_, ?_, ?_, ?_⟩ <;> intros <;> simp [handleSubmit, *]

/-- C10 witness: the theorem at a form with an empty audio id (no call,
error set) and at a complete form in create mode (exactly one preview
call). -/
theorem handleSubmit_spec_witness :
    handleSubmit false 7 { audio_id := "", hash := "h", series := "s" } =
      { error := some "Audio ID is required", calls := [] } ∧
    handleSubmit false 7 { audio_id := "42", hash := "h", series := "s" } =
      { error := none, calls := [SubmitCall.preview] } :=
  ⟨(handleSubmit_spec false 7 { audio_id := "", hash := "h", series := "s" }).1 rfl,
   (handleSubmit_spec false 7 { audio_id := "42", hash := "h", series := "s" }).2.2.2.2
     (by decide) (by decide) (by decide) rfl⟩

end TagHelper
